import Mathlib

/-!
Verification of the databento boundary-adapter layer: a shallow embedding of
the C bindings (`bindings/c/src/databento_c.cpp`) and the managed wrapper
(`wrappers/cpp_cli/DatabentoWrapper/DatabentoWrapper.cpp`), with theorems
settling the specification claims about error handling, the callback
trampolines, the session lifecycle and record dispatch.

The streaming engine itself (databento::LiveBuilder / LiveThreaded /
PitSymbolMap internals) is external to the sources; its calls are modelled as
explicit outcome parameters, and the few data shapes the adapter depends on
(record byte layout, symbol map) are modelled from the spec where noted.
-/

/-- Outcome of a call into the native engine as observed by the adapter's
try/catch blocks: it returns normally, throws a `std::exception` carrying a
message, or throws a non-standard exception (the `catch (...)` branch). -/
inductive NOut where
  | ok
  | exn (msg : String)
  | unk
deriving DecidableEq

/-- databento::KeepGoing — the verdict a record callback returns to the
engine's delivery loop. -/
inductive KeepGoing where
  | Continue
  | Stop
deriving DecidableEq

namespace DbC

/-! ## Error channel (databento_c.cpp lines 20-28, 143-145)

`thread_local std::string g_last_error` is one string slot per thread; the
empty string means "no error". -/

/-- The per-thread error slots: thread id to that thread's `g_last_error`. -/
def ErrState := Nat → String

/-- Overwrite one thread's slot, leaving every other thread's slot unchanged
(`g_last_error` is `thread_local`). -/
def ErrState.set (s : ErrState) (t : Nat) (v : String) : ErrState :=
  fun t2 => if t2 = t then v else s t2

/-- All slots empty: no thread has recorded an error. -/
def emptyErrState : ErrState := fun _ => ""

/-- db_c_last_error as observed on thread `t`: NULL when the slot is empty,
otherwise the stored message. -/
def lastErrorOn (s : ErrState) (t : Nat) : Option String :=
  if s t = "" then none else some (s t)

/-! ## CopyStrings (databento_c.cpp lines 30-41)

The C argument pair `(const char* const* strings, size_t count)` is modelled
as the list of the `count` pointers read by the loop; a null `strings` array
makes every read yield a null pointer, i.e. `List.replicate count none`. -/

/-- CopyStrings: copies the entries, throwing `std::invalid_argument` as soon
as an entry is null.  Note it performs no other validation: an empty list and
empty-string entries are copied through. -/
def CopyStrings : List (Option String) → Except String (List String)
  | [] => Except.ok []
  | none :: _ => Except.error "symbol list contains a null entry"
  | some v :: rest =>
    match CopyStrings rest with
    | Except.ok vs => Except.ok (v :: vs)
    | Except.error e => Except.error e

/-! ## Record interop (databento_c.cpp lines 43-51, 89-101; c_api.h) -/

/-- databento::RecordHeader: 1-byte length in 32-bit words, 1-byte rtype,
2-byte publisher id, 4-byte instrument id, 8-byte event timestamp held as
nanoseconds since the UNIX epoch (`ts_event.time_since_epoch().count()`). -/
structure RecordHeader where
  length : Nat
  rtype : Nat
  publisher_id : Nat
  instrument_id : Nat
  ts_event : Nat
deriving DecidableEq

/-- db_c_record_header_t from c_api.h. -/
structure CHeader where
  length_words : Nat
  rtype : Nat
  publisher_id : Nat
  instrument_id : Nat
  ts_event : Nat
deriving DecidableEq

/-- ToCHeader: field-by-field translation of the native header into the
boundary header. -/
def ToCHeader (header : RecordHeader) : CHeader :=
  { length_words := header.length
    rtype := header.rtype
    publisher_id := header.publisher_id
    instrument_id := header.instrument_id
    ts_event := header.ts_event }

/-- Modelled from the spec: a delivered record is its raw byte buffer whose
first 16 bytes are the native record header (`sizeof(databento::RecordHeader)`)
and whose total length is `record.Size()`; the `databento::Record` class itself
is engine code outside src. -/
structure RecordView where
  header : RecordHeader
  bytes : List Nat
deriving DecidableEq

/-- sizeof(databento::RecordHeader): 1 + 1 + 2 + 4 + 8 = 16 bytes. -/
def headerSize : Nat := 16

/-- record.Size(): the record's total size in bytes. -/
def RecordView.Size (rec : RecordView) : Nat := rec.bytes.length

/-- The body pointer handed to the foreign callback: `header_bytes +
header_size`, i.e. the bytes immediately after the native header. -/
def recordBody (rec : RecordView) : List Nat := rec.bytes.drop headerSize

/-- body_size as computed by the trampoline: `total_size > header_size ?
total_size - header_size : 0` — the guard keeps the size_t subtraction from
underflowing. -/
def recordBodySize (rec : RecordView) : Nat :=
  if rec.Size > headerSize then rec.Size - headerSize else 0

/-- One invocation of a foreign callback either returns a value or raises a
fault (an exception crossing back from foreign code). -/
inductive FOut (α : Type) where
  | ret (value : α)
  | fault (msg : String)

/-- db_c_keep_going_t, the verdict type of the foreign record callback. -/
inductive DbCKeepGoing where
  | Continue
  | Stop
deriving DecidableEq

/-- ToKeepGoing: `keep_going == DB_C_KEEP_GOING_STOP ? Stop : Continue`. -/
def ToKeepGoing : DbCKeepGoing → KeepGoing
  | DbCKeepGoing.Stop => KeepGoing.Stop
  | DbCKeepGoing.Continue => KeepGoing.Continue

/-- MakeRecordCallback: the record trampoline.  It converts the header, forms
the body view, and invokes the foreign callback.  The source lambda contains
no try/catch, so a fault raised by the foreign callback propagates out of the
trampoline into the engine's delivery loop (`Except.error`). -/
def MakeRecordCallback (callback : CHeader → List Nat → Nat → FOut DbCKeepGoing)
    (record : RecordView) : Except String KeepGoing :=
  let header := ToCHeader record.header
  let body := recordBody record
  let body_size := recordBodySize record
  match callback header body body_size with
  | FOut.ret keep_going => Except.ok (ToKeepGoing keep_going)
  | FOut.fault f => Except.error f

/-- Modelled from the spec: a metadata object is represented by its serialized
textual form, since `databento::ToString(metadata)` is engine code outside
src and the trampoline owns the serialization. -/
structure Metadata where
  text : String
deriving DecidableEq

/-- MakeMetadataCallback: the metadata trampoline.  A null foreign callback is
ignored; otherwise the serialized text is passed through.  As with the record
trampoline there is no try/catch, so a foreign fault propagates. -/
def MakeMetadataCallback (callback : Option (String → FOut Unit))
    (metadata : Metadata) : Except String Unit :=
  match callback with
  | none => Except.ok ()
  | some cb =>
    match cb metadata.text with
    | FOut.ret _ => Except.ok ()
    | FOut.fault f => Except.error f

/-! ## The boundary calls (databento_c.cpp, extern "C" block)

Each exported function is a value of `CCall` carrying exactly the data its
control flow branches on: whether each checked pointer argument is null, the
symbol-pointer list for the subscribe family, and the outcome of the native
engine call inside its try block. -/

/-- What a boundary call returns: a status code, a handle (non-null or null),
nothing (the free functions), or a message pointer (db_c_last_error). -/
inductive CallResult where
  | status (code : Int)
  | handleRes (nonNull : Bool)
  | voidRes
  | message (msg : Option String)
deriving DecidableEq

/-- A successful boundary call: status 0 or a non-null handle. -/
def CallResult.succeeds : CallResult → Prop
  | CallResult.status code => code = 0
  | CallResult.handleRes nonNull => nonNull = true
  | _ => False

/-- A failed boundary call: a negative status or a null handle. -/
def CallResult.fails : CallResult → Prop
  | CallResult.status code => code < 0
  | CallResult.handleRes nonNull => nonNull = false
  | _ => False

/-- One call of the C API surface, on some thread. -/
inductive CCall where
  | builderNew (alloc : NOut)
  | builderFree
  | setKey (builderNull apiKeyNull : Bool) (native : NOut)
  | setKeyFromEnv (builderNull : Bool) (native : NOut)
  | setDataset (builderNull datasetNull : Bool) (native : NOut)
  | setDatasetEnum (builderNull : Bool) (native : NOut)
  | setSendTsOut (builderNull : Bool) (native : NOut)
  | setUpgradePolicy (builderNull : Bool) (native : NOut)
  | setHeartbeatInterval (builderNull : Bool) (native : NOut)
  | setAddress (builderNull gatewayNull : Bool) (native : NOut)
  | setBufferSize (builderNull : Bool) (native : NOut)
  | buildThreaded (builderNull : Bool) (native : NOut)
  | clientFree
  | subscribe (clientNull : Bool) (symbols : List (Option String)) (native : NOut)
  | subscribeFromUnix (clientNull : Bool) (symbols : List (Option String)) (native : NOut)
  | subscribeFromStr (clientNull startNull : Bool) (symbols : List (Option String))
      (native : NOut)
  | subscribeWithSnapshot (clientNull : Bool) (symbols : List (Option String)) (native : NOut)
  | startCall (clientNull recordCbNull : Bool) (native : NOut)
  | startWithMetadata (clientNull recordCbNull : Bool) (native : NOut)
  | startWithExceptions (clientNull recordCbNull : Bool) (native : NOut)
  | reconnect (clientNull : Bool) (native : NOut)
  | resubscribe (clientNull : Bool) (native : NOut)
  | blockForStop (clientNull : Bool) (native : NOut)
  | blockForStopTimeout (clientNull resultNull : Bool) (native : NOut)
  | lastErrorCall

/-- What one boundary call produced: its return value, the error slots after
the call, and whether the native engine operation inside the try block was
actually invoked. -/
structure CallOut where
  result : CallResult
  errs : ErrState
  engineInvoked : Bool

/-- The `if (!p) return SetError("...")` prelude of each function: the first
failed check's message, if any, in source order. -/
def firstFailure : List (Bool × String) → Option String
  | [] => none
  | (failed, msg) :: rest => if failed then some msg else firstFailure rest

/-- The shape shared by every status-returning function: null-pointer checks
via SetError, then `try { ClearError(); <native>; return 0 }` with
`catch (std::exception)` recording `ex.what()` and `catch (...)` recording the
function-specific literal. -/
def runStatusCall (checks : List (Bool × String)) (native : NOut) (unkMsg : String)
    (t : Nat) (s : ErrState) : CallOut :=
  match firstFailure checks with
  | some msg => ⟨CallResult.status (-1), s.set t msg, false⟩
  | none =>
    let s1 := s.set t ""
    match native with
    | NOut.ok => ⟨CallResult.status 0, s1, true⟩
    | NOut.exn m => ⟨CallResult.status (-1), s1.set t m, true⟩
    | NOut.unk => ⟨CallResult.status (-1), s1.set t unkMsg, true⟩

/-- The subscribe family: as `runStatusCall`, but CopyStrings runs inside the
try block before the engine call; its `std::invalid_argument` is caught by the
`std::exception` handler without the engine ever being invoked. -/
def runSubscribeCall (checks : List (Bool × String)) (symbols : List (Option String))
    (native : NOut) (unkMsg : String) (t : Nat) (s : ErrState) : CallOut :=
  match firstFailure checks with
  | some msg => ⟨CallResult.status (-1), s.set t msg, false⟩
  | none =>
    let s1 := s.set t ""
    match CopyStrings symbols with
    | Except.error m => ⟨CallResult.status (-1), s1.set t m, false⟩
    | Except.ok _ =>
      match native with
      | NOut.ok => ⟨CallResult.status 0, s1, true⟩
      | NOut.exn m => ⟨CallResult.status (-1), s1.set t m, true⟩
      | NOut.unk => ⟨CallResult.status (-1), s1.set t unkMsg, true⟩

/-- The handle-returning constructors (db_c_live_builder_new,
db_c_live_builder_build_threaded): failure reports through the error slot and
returns a null handle. -/
def runHandleCall (checks : List (Bool × String)) (native : NOut) (unkMsg : String)
    (t : Nat) (s : ErrState) : CallOut :=
  match firstFailure checks with
  | some msg => ⟨CallResult.handleRes false, s.set t msg, false⟩
  | none =>
    let s1 := s.set t ""
    match native with
    | NOut.ok => ⟨CallResult.handleRes true, s1, true⟩
    | NOut.exn m => ⟨CallResult.handleRes false, s1.set t m, true⟩
    | NOut.unk => ⟨CallResult.handleRes false, s1.set t unkMsg, true⟩

/-- Execute one boundary call on thread `t`.  Checks, messages and structure
are transcribed function by function from the extern "C" block. -/
def runCCall : CCall → Nat → ErrState → CallOut
  | CCall.builderNew alloc, t, s =>
      runHandleCall [] alloc "failed to allocate live builder" t s
  | CCall.builderFree, _, s => ⟨CallResult.voidRes, s, true⟩
  | CCall.setKey bn kn native, t, s =>
      runStatusCall [(bn, "builder pointer is null"), (kn, "api_key pointer is null")]
        native "unexpected error in db_c_live_builder_set_key" t s
  | CCall.setKeyFromEnv bn native, t, s =>
      runStatusCall [(bn, "builder pointer is null")]
        native "unexpected error in db_c_live_builder_set_key_from_env" t s
  | CCall.setDataset bn dn native, t, s =>
      runStatusCall [(bn, "builder pointer is null"), (dn, "dataset_code pointer is null")]
        native "unexpected error in db_c_live_builder_set_dataset" t s
  | CCall.setDatasetEnum bn native, t, s =>
      runStatusCall [(bn, "builder pointer is null")]
        native "unexpected error in db_c_live_builder_set_dataset_enum" t s
  | CCall.setSendTsOut bn native, t, s =>
      runStatusCall [(bn, "builder pointer is null")]
        native "unexpected error in db_c_live_builder_set_send_ts_out" t s
  | CCall.setUpgradePolicy bn native, t, s =>
      runStatusCall [(bn, "builder pointer is null")]
        native "unexpected error in db_c_live_builder_set_upgrade_policy" t s
  | CCall.setHeartbeatInterval bn native, t, s =>
      runStatusCall [(bn, "builder pointer is null")]
        native "unexpected error in db_c_live_builder_set_heartbeat_interval" t s
  | CCall.setAddress bn gn native, t, s =>
      runStatusCall [(bn, "builder pointer is null"), (gn, "gateway pointer is null")]
        native "unexpected error in db_c_live_builder_set_address" t s
  | CCall.setBufferSize bn native, t, s =>
      runStatusCall [(bn, "builder pointer is null")]
        native "unexpected error in db_c_live_builder_set_buffer_size" t s
  | CCall.buildThreaded bn native, t, s =>
      runHandleCall [(bn, "builder pointer is null")]
        native "unexpected error in db_c_live_builder_build_threaded" t s
  | CCall.clientFree, _, s => ⟨CallResult.voidRes, s, true⟩
  | CCall.subscribe cn symbols native, t, s =>
      runSubscribeCall [(cn, "client pointer is null")] symbols
        native "unexpected error in db_c_live_threaded_subscribe" t s
  | CCall.subscribeFromUnix cn symbols native, t, s =>
      runSubscribeCall [(cn, "client pointer is null")] symbols
        native "unexpected error in db_c_live_threaded_subscribe_from_unix" t s
  | CCall.subscribeFromStr cn sn symbols native, t, s =>
      runSubscribeCall [(cn, "client pointer is null"), (sn, "start pointer is null")] symbols
        native "unexpected error in db_c_live_threaded_subscribe_from_str" t s
  | CCall.subscribeWithSnapshot cn symbols native, t, s =>
      runSubscribeCall [(cn, "client pointer is null")] symbols
        native "unexpected error in db_c_live_threaded_subscribe_with_snapshot" t s
  | CCall.startCall cn rn native, t, s =>
      runStatusCall [(cn, "client pointer is null"), (rn, "record_callback pointer is null")]
        native "unexpected error in db_c_live_threaded_start" t s
  | CCall.startWithMetadata cn rn native, t, s =>
      runStatusCall [(cn, "client pointer is null"), (rn, "record_callback pointer is null")]
        native "unexpected error in db_c_live_threaded_start_with_metadata" t s
  | CCall.startWithExceptions cn rn native, t, s =>
      runStatusCall [(cn, "client pointer is null"), (rn, "record_callback pointer is null")]
        native "unexpected error in db_c_live_threaded_start_with_exceptions" t s
  | CCall.reconnect cn native, t, s =>
      runStatusCall [(cn, "client pointer is null")]
        native "unexpected error in db_c_live_threaded_reconnect" t s
  | CCall.resubscribe cn native, t, s =>
      runStatusCall [(cn, "client pointer is null")]
        native "unexpected error in db_c_live_threaded_resubscribe" t s
  | CCall.blockForStop cn native, t, s =>
      runStatusCall [(cn, "client pointer is null")]
        native "unexpected error in db_c_live_threaded_block_for_stop" t s
  | CCall.blockForStopTimeout cn rn native, t, s =>
      runStatusCall [(cn, "client pointer is null"), (rn, "result pointer is null")]
        native "unexpected error in db_c_live_threaded_block_for_stop_with_timeout" t s
  | CCall.lastErrorCall, t, s => ⟨CallResult.message (lastErrorOn s t), s, false⟩

/-- The native/allocation outcome a call carries, if it has a try block. -/
def CCall.nativeOf : CCall → Option NOut
  | CCall.builderNew alloc => some alloc
  | CCall.builderFree => none
  | CCall.setKey _ _ n => some n
  | CCall.setKeyFromEnv _ n => some n
  | CCall.setDataset _ _ n => some n
  | CCall.setDatasetEnum _ n => some n
  | CCall.setSendTsOut _ n => some n
  | CCall.setUpgradePolicy _ n => some n
  | CCall.setHeartbeatInterval _ n => some n
  | CCall.setAddress _ _ n => some n
  | CCall.setBufferSize _ n => some n
  | CCall.buildThreaded _ n => some n
  | CCall.clientFree => none
  | CCall.subscribe _ _ n => some n
  | CCall.subscribeFromUnix _ _ n => some n
  | CCall.subscribeFromStr _ _ _ n => some n
  | CCall.subscribeWithSnapshot _ _ n => some n
  | CCall.startCall _ _ n => some n
  | CCall.startWithMetadata _ _ n => some n
  | CCall.startWithExceptions _ _ n => some n
  | CCall.reconnect _ n => some n
  | CCall.resubscribe _ n => some n
  | CCall.blockForStop _ n => some n
  | CCall.blockForStopTimeout _ _ n => some n
  | CCall.lastErrorCall => none

end DbC

namespace DW

/-! ## The managed wrapper (DatabentoWrapper.cpp)

`LiveClient` holds a `NativeState` with the api key, the dataset, the native
client, a symbol map, the registered callback and two atomic flags.  The
managed `String^` type is modelled as `Option String` (null is `none`). -/

/-- Modelled from the spec: the Symbol Map is keyed by instrument identifier,
its value is the last-known raw symbol, and it is updated only by mapping
records (the native `databento::PitSymbolMap` is engine code outside src). -/
structure PitSymbolMap where
  entries : List (Nat × String)
deriving DecidableEq

/-- A freshly constructed `databento::PitSymbolMap{}`: no mappings. -/
def PitSymbolMap.empty : PitSymbolMap := ⟨[]⟩

/-- OnSymbolMapping: record that `iid` now maps to `symbol` (the newest entry
shadows any older one for the same id). -/
def PitSymbolMap.onSymbolMapping (m : PitSymbolMap) (iid : Nat) (symbol : String) :
    PitSymbolMap :=
  ⟨(iid, symbol) :: m.entries⟩

/-- At: the current symbol for `iid`, if one was recorded (the native `At`
throws when the id is absent; the absence is the `none` case here). -/
def PitSymbolMap.at? (m : PitSymbolMap) (iid : Nat) : Option String :=
  (m.entries.find? (fun p => p.1 == iid)).map Prod.snd

/-- A decoded record as the dispatch code observes it: which `GetIf` branch it
matches, the fields that branch reads, and its `databento::ToString`
serialization (engine code, carried as data). -/
inductive RecordMsg where
  | mapping (iid : Nat) (symbol : String) (text : String)
  | trade (iid : Nat) (text : String)
  | system (isHeartbeat : Bool) (text : String)
  | errorMsg (text : String)
  | other (rtype : Nat)
deriving DecidableEq

/-- The arguments of one `RecordCallback::Invoke`: kind literal, instrument
id, resolved symbol, serialized record text. -/
structure Event where
  kind : String
  instrumentId : Nat
  symbol : String
  text : String
deriving DecidableEq

/-- One invocation of the managed callback either returns or throws. -/
inductive COut where
  | ret
  | fault (msg : String)
deriving DecidableEq

/-- The managed record callback: its behaviour on each forwarded event. -/
def RecCb := Event → COut

/-- The wrapper's per-session state (`LiveClient::NativeState`, plus the
`_impl == nullptr` disposed flag of the managed wrapper object). -/
structure WState where
  api_key : String
  dataset : String
  client : Bool
  symbol_map : PitSymbolMap
  callback : Option RecCb
  running : Bool
  stop_requested : Bool
  disposed : Bool

/-- The state right after `LiveClient(apiKey, dataset)` returns. -/
def initState (apiKey dataset : String) : WState :=
  { api_key := apiKey
    dataset := dataset
    client := false
    symbol_map := PitSymbolMap.empty
    callback := none
    running := false
    stop_requested := false
    disposed := false }

/-- `"Unhandled record rtype=0x" << std::hex << record.RType()` for the
fall-through branch. -/
def unknownText (rtype : Nat) : String :=
  "Unhandled record rtype=0x" ++ String.mk (Nat.toDigits 16 rtype)

/-- The per-kind routing inside the record handler's try block: the symbol map
after the record and the events forwarded for it.  The trade branch's
`symbol_map.At` is wrapped in a catch that clears the symbol, modelled by
`Option.getD ""`; a heartbeat system record is suppressed. -/
def dispatchEvents (m : PitSymbolMap) : RecordMsg → PitSymbolMap × List Event
  | RecordMsg.mapping iid symbol text =>
      (m.onSymbolMapping iid symbol, [⟨"mapping", 0, "", text⟩])
  | RecordMsg.trade iid text =>
      (m, [⟨"trade", iid, (m.at? iid).getD "", text⟩])
  | RecordMsg.system isHeartbeat text =>
      (m, if isHeartbeat then [] else [⟨"system", 0, "", text⟩])
  | RecordMsg.errorMsg text =>
      (m, [⟨"error", 0, "", text⟩])
  | RecordMsg.other rtype =>
      (m, [⟨"unknown", 0, "", unknownText rtype⟩])

/-- What one delivery of a record produced: the verdict returned to the
engine, the state afterwards, the events forwarded to the managed callback,
and the callback's outcome on each of them. -/
structure HandlerOut where
  verdict : KeepGoing
  state : WState
  events : List Event
  outcomes : List COut

/-- The `recordHandler` lambda of LiveClient::Start.  Entry check of
stop_requested, null-callback check, dispatch, then the exit check of
stop_requested before returning Continue.  Each forwarded event goes through
the `send` helper, whose `catch (...)` swallows any exception the managed
callback throws — the outcomes are recorded but never affect the verdict or
the state. -/
def recordHandler (st : WState) (record : RecordMsg) : HandlerOut :=
  if st.stop_requested then
    ⟨KeepGoing.Stop, { st with running := false }, [], []⟩
  else
    match st.callback with
    | none => ⟨KeepGoing.Stop, { st with running := false }, [], []⟩
    | some cb =>
      let step := dispatchEvents st.symbol_map record
      let st2 := { st with symbol_map := step.1 }
      let outcomes := step.2.map cb
      if st2.stop_requested then
        ⟨KeepGoing.Stop, { st2 with running := false }, step.2, outcomes⟩
      else
        ⟨KeepGoing.Continue, st2, step.2, outcomes⟩

/-- The engine's delivery loop: records are handed to the record handler in
order until it returns Stop.  Returns the final state and all events forwarded
to the managed callback. -/
def runLoop (st : WState) : List RecordMsg → WState × List Event
  | [] => (st, [])
  | record :: rest =>
    let out := recordHandler st record
    match out.verdict with
    | KeepGoing.Stop => (out.state, out.events)
    | KeepGoing.Continue =>
      let tail := runLoop out.state rest
      (tail.1, out.events ++ tail.2)

/-- The managed exceptions the wrapper throws across its boundary. -/
inductive ManagedError where
  | argNull (param : String)
  | argEx (message param : String)
  | objectDisposed
  | invalidOperation (message : String)
deriving DecidableEq

/-- String::IsNullOrWhiteSpace on a managed string. -/
def isNullOrWhiteSpace : Option String → Bool
  | none => true
  | some s => s.data.all Char.isWhitespace

/-- LiveClient::ValidateSymbols: null array, empty array, then a per-entry
null-or-whitespace check, in source order. -/
def ValidateSymbols (symbols : Option (List (Option String))) : Except ManagedError Unit :=
  match symbols with
  | none => Except.error (ManagedError.argNull "symbols")
  | some list =>
    if list.length = 0 then
      Except.error (ManagedError.argEx "At least one symbol is required." "symbols")
    else if list.any isNullOrWhiteSpace then
      Except.error
        (ManagedError.argEx "Symbols cannot contain null or whitespace entries." "symbols")
    else Except.ok ()

/-- LiveClient::EnsureClient: ThrowIfDisposed, then build the native client on
first use; `nativeBuild` is the outcome of the builder's BuildThreaded. -/
def ensureClient (st : WState) (nativeBuild : NOut) : WState × Except ManagedError Unit :=
  if st.disposed then (st, Except.error ManagedError.objectDisposed)
  else if st.client then (st, Except.ok ())
  else
    match nativeBuild with
    | NOut.ok => ({ st with client := true }, Except.ok ())
    | NOut.exn m => (st, Except.error (ManagedError.invalidOperation m))
    | NOut.unk =>
        (st, Except.error (ManagedError.invalidOperation "Failed to create Databento live client."))

/-- What SubscribeTrades produced: the state afterwards, its result, and
whether the engine's Subscribe was reached. -/
structure SubscribeOut where
  state : WState
  result : Except ManagedError Unit
  engineInvoked : Bool

/-- LiveClient::SubscribeTrades: ValidateSymbols first, then EnsureClient,
then the native Subscribe inside try/catch. -/
def subscribeTrades (st : WState) (symbols : Option (List (Option String)))
    (nativeBuild nativeSub : NOut) : SubscribeOut :=
  match ValidateSymbols symbols with
  | Except.error e => ⟨st, Except.error e, false⟩
  | Except.ok _ =>
    match ensureClient st nativeBuild with
    | (st1, Except.error e) => ⟨st1, Except.error e, false⟩
    | (st1, Except.ok _) =>
      match nativeSub with
      | NOut.ok => ⟨st1, Except.ok (), true⟩
      | NOut.exn m => ⟨st1, Except.error (ManagedError.invalidOperation m), true⟩
      | NOut.unk =>
          ⟨st1, Except.error (ManagedError.invalidOperation "Failed to subscribe to trades."), true⟩

/-- `running.compare_exchange_strong(expected = false, true)`: succeeds, and
sets the flag, exactly when the flag was clear; a set flag is left set.  This
is the single atomic step through which concurrent Start calls race. -/
def cas (flag : Bool) : Bool × Bool :=
  if flag then (false, flag) else (true, true)

/-- Two concurrent Start calls both executing their compare-and-set on the
same running flag, in the order they happen to be serialized (the two possible
interleavings are the two namings of `first` and `second`). -/
def casPair (initialRunning : Bool) : Bool × Bool × Bool :=
  let first := cas initialRunning
  let second := cas first.2
  (first.1, second.1, second.2)

/-- What LiveClient::Start produced. -/
structure StartOut where
  state : WState
  result : Except ManagedError Unit

/-- LiveClient::Start: ThrowIfDisposed, null-callback check, EnsureClient,
the compare-and-set on `running`, then the resets (stop_requested, callback,
symbol_map) and the native Start; a native Start failure rolls `running` back
to false. -/
def startFn (st : WState) (cb : Option RecCb) (nativeBuild nativeStart : NOut) : StartOut :=
  if st.disposed then ⟨st, Except.error ManagedError.objectDisposed⟩
  else
    match cb with
    | none => ⟨st, Except.error (ManagedError.argNull "callback")⟩
    | some cbv =>
      match ensureClient st nativeBuild with
      | (st1, Except.error e) => ⟨st1, Except.error e⟩
      | (st1, Except.ok _) =>
        let exchanged := cas st1.running
        if exchanged.1 = false then
          ⟨st1, Except.error (ManagedError.invalidOperation "The live client is already running.")⟩
        else
          let st2 := { st1 with
            running := exchanged.2
            stop_requested := false
            callback := some cbv
            symbol_map := PitSymbolMap.empty }
          match nativeStart with
          | NOut.ok => ⟨st2, Except.ok ()⟩
          | NOut.exn m =>
              ⟨{ st2 with running := false }, Except.error (ManagedError.invalidOperation m)⟩
          | NOut.unk =>
              ⟨{ st2 with running := false },
                Except.error (ManagedError.invalidOperation "Failed to start live stream.")⟩

/-- LiveClient::Stop: early return when disposed (`_impl == nullptr`);
otherwise set stop_requested, release the native client if present (the
BlockForStop(0ms) outcome is ignored), then clear running, the callback, the
symbol map and stop_requested. -/
def stopFn (st : WState) : WState :=
  if st.disposed then st
  else
    let st1 := { st with stop_requested := true }
    let st2 := if st1.client then { st1 with client := false } else st1
    { st2 with
      running := false
      callback := none
      symbol_map := PitSymbolMap.empty
      stop_requested := false }

/-- The most recent mapping for `target` in a record sequence, if any. -/
def lastMappingSymbol : List RecordMsg → Nat → Option String
  | [], _ => none
  | RecordMsg.mapping iid symbol _ :: rest, target =>
    match lastMappingSymbol rest target with
    | some s => some s
    | none => if iid = target then some symbol else none
  | _ :: rest, target => lastMappingSymbol rest target

end DW

/-! ## Concrete sample inputs used by witnesses and counterexamples -/

/-- A 16-byte record (header only) for exercising the record trampoline. -/
def c1Rec : DbC.RecordView := ⟨⟨4, 1, 1, 42, 0⟩, List.replicate 16 0⟩

/-- A foreign record callback that faults on every invocation. -/
def c1FaultCb : DbC.CHeader → List Nat → Nat → DbC.FOut DbC.DbCKeepGoing :=
  fun _ _ _ => DbC.FOut.fault "managed fault"

/-- A managed record callback that throws on every invocation. -/
def c1ManagedCb : DW.RecCb := fun _ => DW.COut.fault "managed fault"

/-- A started-looking wrapper state whose managed callback always throws. -/
def c1State : DW.WState :=
  { DW.initState "key" "GLBX.MDP3" with client := true, callback := some c1ManagedCb }

/-- A managed record callback that returns normally. -/
def okCb : DW.RecCb := fun _ => DW.COut.ret

/-- A wrapper state whose delivery loop is already running. -/
def c3State : DW.WState :=
  { DW.initState "key" "GLBX.MDP3" with client := true, running := true }

/-- A fresh wrapper state with a registered callback, ready for delivery. -/
def c6State : DW.WState :=
  { DW.initState "key" "GLBX.MDP3" with client := true, running := true, callback := some okCb }

/-- A 20-byte record: 16 header bytes plus a 4-byte body. -/
def c7Rec : DbC.RecordView := ⟨⟨5, 1, 2, 100, 123456789⟩, List.replicate 20 7⟩

/-- A running wrapper state on which stop has been requested. -/
def c8State : DW.WState :=
  { DW.initState "key" "ds" with
    client := true, running := true, stop_requested := true, callback := some okCb }

/-- A wrapper state carrying a stale mapping from a previous run. -/
def c9State : DW.WState :=
  { DW.initState "key" "ds" with client := true, symbol_map := ⟨[(7, "OLD")]⟩ }

/-- A wrapper state mid-run, with loop state to be torn down by stop. -/
def c10State : DW.WState :=
  { DW.initState "key" "ds" with
    client := true, running := true, stop_requested := true,
    symbol_map := ⟨[(7, "OLD")]⟩, callback := some okCb }

/-! ## Helper lemmas -/

theorem lastErrorOn_of_empty (s : DbC.ErrState) (t : Nat) (h : s t = "") :
    DbC.lastErrorOn s t = none := by
  simp [DbC.lastErrorOn, h]

theorem lastErrorOn_of_ne (s : DbC.ErrState) (t : Nat) (h : s t ≠ "") :
    DbC.lastErrorOn s t = some (s t) := by
  simp [DbC.lastErrorOn, h]

theorem ErrState.set_same (s : DbC.ErrState) (t : Nat) (v : String) :
    DbC.ErrState.set s t v t = v := by
  simp [DbC.ErrState.set]

theorem ErrState.set_other (s : DbC.ErrState) (t : Nat) (v : String) (t2 : Nat)
    (h : t2 ≠ t) : DbC.ErrState.set s t v t2 = s t2 := by
  simp [DbC.ErrState.set, h]

theorem firstFailure_mem {checks : List (Bool × String)} {msg : String}
    (h : DbC.firstFailure checks = some msg) : msg ∈ checks.map Prod.snd := by
  induction checks with
  | nil => simp [DbC.firstFailure] at h
  | cons p rest ih =>
    obtain ⟨b, m⟩ := p
    cases b with
    | true =>
      simp only [DbC.firstFailure, if_true, Option.some.injEq] at h
      subst h
      simp
    | false =>
      simp only [DbC.firstFailure, if_false] at h
      exact List.mem_cons_of_mem _ (ih h)

theorem CopyStrings_error_msg {syms : List (Option String)} {m : String}
    (h : DbC.CopyStrings syms = Except.error m) :
    m = "symbol list contains a null entry" := by
  induction syms with
  | nil => simp [DbC.CopyStrings] at h
  | cons e rest ih =>
    cases e with
    | none =>
      simp only [DbC.CopyStrings, Except.error.injEq] at h
      exact h.symm
    | some v =>
      simp only [DbC.CopyStrings] at h
      cases hr : DbC.CopyStrings rest with
      | ok vs => rw [hr] at h; simp at h
      | error e2 => rw [hr] at h; simp at h; subst h; exact ih hr

theorem CopyStrings_mem_none {syms : List (Option String)} (h : none ∈ syms) :
    DbC.CopyStrings syms = Except.error "symbol list contains a null entry" := by
  induction syms with
  | nil => simp at h
  | cons e rest ih =>
    cases e with
    | none => rfl
    | some v =>
      have hr : none ∈ rest := by
        rcases List.mem_cons.mp h with h1 | h1
        · exact absurd h1.symm (by simp)
        · exact h1
      simp only [DbC.CopyStrings, ih hr]


theorem runStatusCall_spec (checks : List (Bool × String)) (native : NOut)
    (unkMsg : String) (t : Nat) (s : DbC.ErrState)
    (hmsgs : "" ∉ checks.map Prod.snd) (hunk : unkMsg ≠ "") :
    ((DbC.runStatusCall checks native unkMsg t s).result.succeeds →
        (DbC.runStatusCall checks native unkMsg t s).errs t = "")
  ∧ ((DbC.runStatusCall checks native unkMsg t s).result.fails →
        native ≠ NOut.exn "" →
        (DbC.runStatusCall checks native unkMsg t s).errs t ≠ "")
  ∧ ∀ t2, t2 ≠ t → (DbC.runStatusCall checks native unkMsg t s).errs t2 = s t2 := by
  cases hf : DbC.firstFailure checks with
  | some msg =>
    simp only [DbC.runStatusCall, hf]
    refine ⟨?_, ?_, ?_⟩
    · intro hs; exact absurd hs (by simp [DbC.CallResult.succeeds])
    · intro _ _
      rw [ErrState.set_same]
      intro he
      exact hmsgs (he ▸ firstFailure_mem hf)
    · intro t2 h2; exact ErrState.set_other _ _ _ _ h2
  | none =>
    cases native with
    | ok =>
      simp only [DbC.runStatusCall, hf]
      exact ⟨fun _ => ErrState.set_same _ _ _,
        fun hfl => absurd hfl (by simp [DbC.CallResult.fails]),
        fun t2 h2 => ErrState.set_other _ _ _ _ h2⟩
    | exn m =>
      simp only [DbC.runStatusCall, hf]
      refine ⟨fun hs => absurd hs (by simp [DbC.CallResult.succeeds]), ?_, ?_⟩
      · intro _ hne
        rw [ErrState.set_same]
        intro he
        exact hne (by rw [he])
      · intro t2 h2
        rw [ErrState.set_other _ _ _ _ h2, ErrState.set_other _ _ _ _ h2]
    | unk =>
      simp only [DbC.runStatusCall, hf]
      refine ⟨fun hs => absurd hs (by simp [DbC.CallResult.succeeds]), ?_, ?_⟩
      · intro _ _
        rw [ErrState.set_same]
        exact hunk
      · intro t2 h2
        rw [ErrState.set_other _ _ _ _ h2, ErrState.set_other _ _ _ _ h2]

theorem runHandleCall_spec (checks : List (Bool × String)) (native : NOut)
    (unkMsg : String) (t : Nat) (s : DbC.ErrState)
    (hmsgs : "" ∉ checks.map Prod.snd) (hunk : unkMsg ≠ "") :
    ((DbC.runHandleCall checks native unkMsg t s).result.succeeds →
        (DbC.runHandleCall checks native unkMsg t s).errs t = "")
  ∧ ((DbC.runHandleCall checks native unkMsg t s).result.fails →
        native ≠ NOut.exn "" →
        (DbC.runHandleCall checks native unkMsg t s).errs t ≠ "")
  ∧ ∀ t2, t2 ≠ t → (DbC.runHandleCall checks native unkMsg t s).errs t2 = s t2 := by
  cases hf : DbC.firstFailure checks with
  | some msg =>
    simp only [DbC.runHandleCall, hf]
    refine ⟨?_, ?_, ?_⟩
    · intro hs; exact absurd hs (by simp [DbC.CallResult.succeeds])
    · intro _ _
      rw [ErrState.set_same]
      intro he
      exact hmsgs (he ▸ firstFailure_mem hf)
    · intro t2 h2; exact ErrState.set_other _ _ _ _ h2
  | none =>
    cases native with
    | ok =>
      simp only [DbC.runHandleCall, hf]
      exact ⟨fun _ => ErrState.set_same _ _ _,
        fun hfl => absurd hfl (by simp [DbC.CallResult.fails]),
        fun t2 h2 => ErrState.set_other _ _ _ _ h2⟩
    | exn m =>
      simp only [DbC.runHandleCall, hf]
      refine ⟨fun hs => absurd hs (by simp [DbC.CallResult.succeeds]), ?_, ?_⟩
      · intro _ hne
        rw [ErrState.set_same]
        intro he
        exact hne (by rw [he])
      · intro t2 h2
        rw [ErrState.set_other _ _ _ _ h2, ErrState.set_other _ _ _ _ h2]
    | unk =>
      simp only [DbC.runHandleCall, hf]
      refine ⟨fun hs => absurd hs (by simp [DbC.CallResult.succeeds]), ?_, ?_⟩
      · intro _ _
        rw [ErrState.set_same]
        exact hunk
      · intro t2 h2
        rw [ErrState.set_other _ _ _ _ h2, ErrState.set_other _ _ _ _ h2]

theorem runSubscribeCall_spec (checks : List (Bool × String))
    (symbols : List (Option String)) (native : NOut)
    (unkMsg : String) (t : Nat) (s : DbC.ErrState)
    (hmsgs : "" ∉ checks.map Prod.snd) (hunk : unkMsg ≠ "") :
    ((DbC.runSubscribeCall checks symbols native unkMsg t s).result.succeeds →
        (DbC.runSubscribeCall checks symbols native unkMsg t s).errs t = "")
  ∧ ((DbC.runSubscribeCall checks symbols native unkMsg t s).result.fails →
        native ≠ NOut.exn "" →
        (DbC.runSubscribeCall checks symbols native unkMsg t s).errs t ≠ "")
  ∧ ∀ t2, t2 ≠ t →
      (DbC.runSubscribeCall checks symbols native unkMsg t s).errs t2 = s t2 := by
  cases hf : DbC.firstFailure checks with
  | some msg =>
    simp only [DbC.runSubscribeCall, hf]
    refine ⟨?_, ?_, ?_⟩
    · intro hs; exact absurd hs (by simp [DbC.CallResult.succeeds])
    · intro _ _
      rw [ErrState.set_same]
      intro he
      exact hmsgs (he ▸ firstFailure_mem hf)
    · intro t2 h2; exact ErrState.set_other _ _ _ _ h2
  | none =>
    cases hc : DbC.CopyStrings symbols with
    | error m =>
      simp only [DbC.runSubscribeCall, hf, hc]
      refine ⟨fun hs => absurd hs (by simp [DbC.CallResult.succeeds]), ?_, ?_⟩
      · intro _ _
        rw [ErrState.set_same, CopyStrings_error_msg hc]
        simp
      · intro t2 h2
        rw [ErrState.set_other _ _ _ _ h2, ErrState.set_other _ _ _ _ h2]
    | ok vs =>
      cases native with
      | ok =>
        simp only [DbC.runSubscribeCall, hf, hc]
        exact ⟨fun _ => ErrState.set_same _ _ _,
          fun hfl => absurd hfl (by simp [DbC.CallResult.fails]),
          fun t2 h2 => ErrState.set_other _ _ _ _ h2⟩
      | exn m =>
        simp only [DbC.runSubscribeCall, hf, hc]
        refine ⟨fun hs => absurd hs (by simp [DbC.CallResult.succeeds]), ?_, ?_⟩
        · intro _ hne
          rw [ErrState.set_same]
          intro he
          exact hne (by rw [he])
        · intro t2 h2
          rw [ErrState.set_other _ _ _ _ h2, ErrState.set_other _ _ _ _ h2]
      | unk =>
        simp only [DbC.runSubscribeCall, hf, hc]
        refine ⟨fun hs => absurd hs (by simp [DbC.CallResult.succeeds]), ?_, ?_⟩
        · intro _ _
          rw [ErrState.set_same]
          exact hunk
        · intro t2 h2
          rw [ErrState.set_other _ _ _ _ h2, ErrState.set_other _ _ _ _ h2]

theorem c2_shape {o : DbC.CallOut} {s : DbC.ErrState} {t : Nat} (P : Prop)
    (h1 : o.result.succeeds → o.errs t = "")
    (h2 : o.result.fails → P → o.errs t ≠ "")
    (h3 : ∀ t2, t2 ≠ t → o.errs t2 = s t2) :
    (o.result.succeeds → o.errs t = "" ∧ DbC.lastErrorOn o.errs t = none)
  ∧ (o.result.fails → P → o.errs t ≠ "" ∧ DbC.lastErrorOn o.errs t = some (o.errs t))
  ∧ ∀ t2, t2 ≠ t → o.errs t2 = s t2 :=
  ⟨fun hs => ⟨h1 hs, lastErrorOn_of_empty _ _ (h1 hs)⟩,
   fun hf hp => ⟨h2 hf hp, lastErrorOn_of_ne _ _ (h2 hf hp)⟩,
   h3⟩

theorem statusCase (checks : List (Bool × String)) (native : NOut) (unkMsg : String)
    (t : Nat) (s : DbC.ErrState)
    (hmsgs : "" ∉ checks.map Prod.snd) (hunk : unkMsg ≠ "") :
    ((DbC.runStatusCall checks native unkMsg t s).result.succeeds →
        (DbC.runStatusCall checks native unkMsg t s).errs t = ""
          ∧ DbC.lastErrorOn (DbC.runStatusCall checks native unkMsg t s).errs t = none)
  ∧ ((DbC.runStatusCall checks native unkMsg t s).result.fails →
        some native ≠ some (NOut.exn "") →
        (DbC.runStatusCall checks native unkMsg t s).errs t ≠ ""
          ∧ DbC.lastErrorOn (DbC.runStatusCall checks native unkMsg t s).errs t
              = some ((DbC.runStatusCall checks native unkMsg t s).errs t))
  ∧ ∀ t2, t2 ≠ t → (DbC.runStatusCall checks native unkMsg t s).errs t2 = s t2 := by
  have hsp := runStatusCall_spec checks native unkMsg t s hmsgs hunk
  exact c2_shape _ hsp.1 (fun hf hp => hsp.2.1 hf (fun he => hp (congrArg some he))) hsp.2.2

theorem handleCase (checks : List (Bool × String)) (native : NOut) (unkMsg : String)
    (t : Nat) (s : DbC.ErrState)
    (hmsgs : "" ∉ checks.map Prod.snd) (hunk : unkMsg ≠ "") :
    ((DbC.runHandleCall checks native unkMsg t s).result.succeeds →
        (DbC.runHandleCall checks native unkMsg t s).errs t = ""
          ∧ DbC.lastErrorOn (DbC.runHandleCall checks native unkMsg t s).errs t = none)
  ∧ ((DbC.runHandleCall checks native unkMsg t s).result.fails →
        some native ≠ some (NOut.exn "") →
        (DbC.runHandleCall checks native unkMsg t s).errs t ≠ ""
          ∧ DbC.lastErrorOn (DbC.runHandleCall checks native unkMsg t s).errs t
              = some ((DbC.runHandleCall checks native unkMsg t s).errs t))
  ∧ ∀ t2, t2 ≠ t → (DbC.runHandleCall checks native unkMsg t s).errs t2 = s t2 := by
  have hsp := runHandleCall_spec checks native unkMsg t s hmsgs hunk
  exact c2_shape _ hsp.1 (fun hf hp => hsp.2.1 hf (fun he => hp (congrArg some he))) hsp.2.2

theorem subscribeCase (checks : List (Bool × String)) (symbols : List (Option String))
    (native : NOut) (unkMsg : String) (t : Nat) (s : DbC.ErrState)
    (hmsgs : "" ∉ checks.map Prod.snd) (hunk : unkMsg ≠ "") :
    ((DbC.runSubscribeCall checks symbols native unkMsg t s).result.succeeds →
        (DbC.runSubscribeCall checks symbols native unkMsg t s).errs t = ""
          ∧ DbC.lastErrorOn (DbC.runSubscribeCall checks symbols native unkMsg t s).errs t
              = none)
  ∧ ((DbC.runSubscribeCall checks symbols native unkMsg t s).result.fails →
        some native ≠ some (NOut.exn "") →
        (DbC.runSubscribeCall checks symbols native unkMsg t s).errs t ≠ ""
          ∧ DbC.lastErrorOn (DbC.runSubscribeCall checks symbols native unkMsg t s).errs t
              = some ((DbC.runSubscribeCall checks symbols native unkMsg t s).errs t))
  ∧ ∀ t2, t2 ≠ t →
      (DbC.runSubscribeCall checks symbols native unkMsg t s).errs t2 = s t2 := by
  have hsp := runSubscribeCall_spec checks symbols native unkMsg t s hmsgs hunk
  exact c2_shape _ hsp.1 (fun hf hp => hsp.2.1 hf (fun he => hp (congrArg some he))) hsp.2.2

/-- C2 (amended form): every boundary call that succeeds leaves the calling
thread's error slot empty (db_c_last_error returns null); every boundary call
that fails leaves a message in the slot which db_c_last_error returns,
provided the exception message of a thrown `std::exception` is not the empty
string; and no call ever touches another thread's slot. -/
theorem c2_error_slot_discipline (c : DbC.CCall) (t : Nat) (s : DbC.ErrState) :
    ((DbC.runCCall c t s).result.succeeds →
        (DbC.runCCall c t s).errs t = ""
          ∧ DbC.lastErrorOn (DbC.runCCall c t s).errs t = none)
  ∧ ((DbC.runCCall c t s).result.fails → c.nativeOf ≠ some (NOut.exn "") →
        (DbC.runCCall c t s).errs t ≠ ""
          ∧ DbC.lastErrorOn (DbC.runCCall c t s).errs t
              = some ((DbC.runCCall c t s).errs t))
  ∧ ∀ t2, t2 ≠ t → (DbC.runCCall c t s).errs t2 = s t2 := by
  cases c with
  | builderNew alloc =>
      exact handleCase [] alloc "failed to allocate live builder" t s (by simp) (by decide)
  | builderFree =>
      exact ⟨fun hs => False.elim hs, fun hf => False.elim hf, fun _ _ => rfl⟩
  | setKey bn kn n =>
      exact statusCase [(bn, "builder pointer is null"), (kn, "api_key pointer is null")] n
        "unexpected error in db_c_live_builder_set_key" t s (by simp) (by decide)
  | setKeyFromEnv bn n =>
      exact statusCase [(bn, "builder pointer is null")] n
        "unexpected error in db_c_live_builder_set_key_from_env" t s (by simp) (by decide)
  | setDataset bn dn n =>
      exact statusCase [(bn, "builder pointer is null"), (dn, "dataset_code pointer is null")] n
        "unexpected error in db_c_live_builder_set_dataset" t s (by simp) (by decide)
  | setDatasetEnum bn n =>
      exact statusCase [(bn, "builder pointer is null")] n
        "unexpected error in db_c_live_builder_set_dataset_enum" t s (by simp) (by decide)
  | setSendTsOut bn n =>
      exact statusCase [(bn, "builder pointer is null")] n
        "unexpected error in db_c_live_builder_set_send_ts_out" t s (by simp) (by decide)
  | setUpgradePolicy bn n =>
      exact statusCase [(bn, "builder pointer is null")] n
        "unexpected error in db_c_live_builder_set_upgrade_policy" t s (by simp) (by decide)
  | setHeartbeatInterval bn n =>
      exact statusCase [(bn, "builder pointer is null")] n
        "unexpected error in db_c_live_builder_set_heartbeat_interval" t s
        (by simp) (by decide)
  | setAddress bn gn n =>
      exact statusCase [(bn, "builder pointer is null"), (gn, "gateway pointer is null")] n
        "unexpected error in db_c_live_builder_set_address" t s (by simp) (by decide)
  | setBufferSize bn n =>
      exact statusCase [(bn, "builder pointer is null")] n
        "unexpected error in db_c_live_builder_set_buffer_size" t s (by simp) (by decide)
  | buildThreaded bn n =>
      exact handleCase [(bn, "builder pointer is null")] n
        "unexpected error in db_c_live_builder_build_threaded" t s (by simp) (by decide)
  | clientFree =>
      exact ⟨fun hs => False.elim hs, fun hf => False.elim hf, fun _ _ => rfl⟩
  | subscribe cn symbols n =>
      exact subscribeCase [(cn, "client pointer is null")] symbols n
        "unexpected error in db_c_live_threaded_subscribe" t s (by simp) (by decide)
  | subscribeFromUnix cn symbols n =>
      exact subscribeCase [(cn, "client pointer is null")] symbols n
        "unexpected error in db_c_live_threaded_subscribe_from_unix" t s
        (by simp) (by decide)
  | subscribeFromStr cn sn symbols n =>
      exact subscribeCase [(cn, "client pointer is null"), (sn, "start pointer is null")]
        symbols n "unexpected error in db_c_live_threaded_subscribe_from_str" t s
        (by simp) (by decide)
  | subscribeWithSnapshot cn symbols n =>
      exact subscribeCase [(cn, "client pointer is null")] symbols n
        "unexpected error in db_c_live_threaded_subscribe_with_snapshot" t s
        (by simp) (by decide)
  | startCall cn rn n =>
      exact statusCase [(cn, "client pointer is null"), (rn, "record_callback pointer is null")]
        n "unexpected error in db_c_live_threaded_start" t s (by simp) (by decide)
  | startWithMetadata cn rn n =>
      exact statusCase [(cn, "client pointer is null"), (rn, "record_callback pointer is null")]
        n "unexpected error in db_c_live_threaded_start_with_metadata" t s
        (by simp) (by decide)
  | startWithExceptions cn rn n =>
      exact statusCase [(cn, "client pointer is null"), (rn, "record_callback pointer is null")]
        n "unexpected error in db_c_live_threaded_start_with_exceptions" t s
        (by simp) (by decide)
  | reconnect cn n =>
      exact statusCase [(cn, "client pointer is null")] n
        "unexpected error in db_c_live_threaded_reconnect" t s (by simp) (by decide)
  | resubscribe cn n =>
      exact statusCase [(cn, "client pointer is null")] n
        "unexpected error in db_c_live_threaded_resubscribe" t s (by simp) (by decide)
  | blockForStop cn n =>
      exact statusCase [(cn, "client pointer is null")] n
        "unexpected error in db_c_live_threaded_block_for_stop" t s (by simp) (by decide)
  | blockForStopTimeout cn rn n =>
      exact statusCase [(cn, "client pointer is null"), (rn, "result pointer is null")] n
        "unexpected error in db_c_live_threaded_block_for_stop_with_timeout" t s
        (by simp) (by decide)
  | lastErrorCall =>
      exact ⟨fun hs => False.elim hs, fun hf => False.elim hf, fun _ _ => rfl⟩

/-- C2 counterexample: a boundary call that fails because the native call threw
an exception whose message is the empty string (std::runtime_error("")) returns
-1 yet leaves the slot empty, so db_c_last_error returns null, not the stored
message — refuting the claim that a failing call always makes db_c_last_error
return the failure message. -/
theorem c2_empty_message_counterexample :
    (DbC.runCCall (DbC.CCall.setKey false false (NOut.exn "")) 0 DbC.emptyErrState).result
        = DbC.CallResult.status (-1)
  ∧ DbC.lastErrorOn
      (DbC.runCCall (DbC.CCall.setKey false false (NOut.exn "")) 0 DbC.emptyErrState).errs 0
      = none := by
  exact ⟨rfl, rfl⟩

/-- Witness for C2: the failing db_c_live_builder_set_dataset call with a null
dataset pointer records a non-empty message which db_c_last_error returns. -/
theorem c2_error_slot_discipline_witness :
    (DbC.runCCall (DbC.CCall.setDataset false true NOut.ok) 0 DbC.emptyErrState).errs 0 ≠ ""
  ∧ DbC.lastErrorOn
      (DbC.runCCall (DbC.CCall.setDataset false true NOut.ok) 0 DbC.emptyErrState).errs 0
      = some ((DbC.runCCall (DbC.CCall.setDataset false true NOut.ok) 0
          DbC.emptyErrState).errs 0) :=
  (c2_error_slot_discipline (DbC.CCall.setDataset false true NOut.ok) 0
      DbC.emptyErrState).2.1 (by norm_num : (-1 : Int) < 0) (by decide)

/-- C1 counterexample: a fault raised inside the foreign record callback is not
caught at the C trampoline boundary — it propagates out of the trampoline
(`Except.error`) instead of being converted into the Stop verdict. -/
theorem c1_fault_escape_counterexample :
    DbC.MakeRecordCallback c1FaultCb c1Rec = Except.error "managed fault"
  ∧ DbC.MakeRecordCallback c1FaultCb c1Rec ≠ Except.ok KeepGoing.Stop := by
  refine ⟨rfl, ?_⟩
  intro h
  simp [DbC.MakeRecordCallback, c1FaultCb] at h

/-- C1 (amended form): in the C bindings a fault raised by the foreign record
or metadata callback propagates out of the trampoline into the engine's
delivery loop unchanged; in the managed wrapper a fault raised by the managed
callback is caught at the forwarding boundary and silently absorbed, after
which dispatch continues — the record sink returns Continue (not Stop) when no
stop has been requested, whatever the callback did. -/
theorem c1_fault_paths (cb : DbC.CHeader → List Nat → Nat → DbC.FOut DbC.DbCKeepGoing)
    (rec : DbC.RecordView) (mcb : String → DbC.FOut Unit) (md : DbC.Metadata)
    (m m2 : String) (st : DW.WState) (r : DW.RecordMsg) (wcb : DW.RecCb) :
    (cb (DbC.ToCHeader rec.header) (DbC.recordBody rec) (DbC.recordBodySize rec)
          = DbC.FOut.fault m →
        DbC.MakeRecordCallback cb rec = Except.error m)
  ∧ (mcb md.text = DbC.FOut.fault m2 →
        DbC.MakeMetadataCallback (some mcb) md = Except.error m2)
  ∧ (st.stop_requested = false → st.callback = some wcb →
        (DW.recordHandler st r).verdict = KeepGoing.Continue) := by
  refine ⟨?_, ?_, ?_⟩
  · intro h
    simp only [DbC.MakeRecordCallback, h]
  · intro h
    simp only [DbC.MakeMetadataCallback, h]
  · intro h1 h2
    simp [DW.recordHandler, h1, h2]

/-- Witness for C1: an always-faulting foreign callback's fault comes straight
back out of the record trampoline, and an always-throwing managed callback
still yields the Continue verdict from the wrapper's record handler. -/
theorem c1_fault_paths_witness :
    DbC.MakeRecordCallback c1FaultCb c1Rec = Except.error "managed fault"
  ∧ (DW.recordHandler c1State (DW.RecordMsg.trade 42 "t")).verdict
      = KeepGoing.Continue :=
  ⟨(c1_fault_paths c1FaultCb c1Rec (fun _ => DbC.FOut.fault "managed fault")
        ⟨"meta"⟩ "managed fault" "managed fault" c1State (DW.RecordMsg.trade 42 "t")
        c1ManagedCb).1 rfl,
   (c1_fault_paths c1FaultCb c1Rec (fun _ => DbC.FOut.fault "managed fault")
        ⟨"meta"⟩ "managed fault" "managed fault" c1State (DW.RecordMsg.trade 42 "t")
        c1ManagedCb).2.2 rfl rfl⟩

/-- C7: the header passed across the boundary carries exactly the native
header's fields, and the body view is the byte range immediately after the
16-byte native header whose length is the record's total size minus the header
size, clamped to zero when the record is no larger than its header — the
subtraction never underflows (headerSize + body size never exceeds the total
size). -/
theorem c7_header_and_body_view (rec : DbC.RecordView) :
    (DbC.ToCHeader rec.header).length_words = rec.header.length
  ∧ (DbC.ToCHeader rec.header).rtype = rec.header.rtype
  ∧ (DbC.ToCHeader rec.header).publisher_id = rec.header.publisher_id
  ∧ (DbC.ToCHeader rec.header).instrument_id = rec.header.instrument_id
  ∧ (DbC.ToCHeader rec.header).ts_event = rec.header.ts_event
  ∧ DbC.recordBody rec = rec.bytes.drop DbC.headerSize
  ∧ (DbC.headerSize < rec.Size →
        DbC.recordBodySize rec = rec.Size - DbC.headerSize
      ∧ DbC.headerSize + DbC.recordBodySize rec = rec.Size
      ∧ (DbC.recordBody rec).length = DbC.recordBodySize rec)
  ∧ (rec.Size ≤ DbC.headerSize → DbC.recordBodySize rec = 0) := by
  refine ⟨rfl, rfl, rfl, rfl, rfl, rfl, ?_, ?_⟩
  · intro h
    refine ⟨?_, ?_, ?_⟩
    · simp [DbC.recordBodySize, h]
    · simp only [DbC.recordBodySize, if_pos h]
      omega
    · simp only [DbC.recordBody, DbC.recordBodySize, if_pos h, List.length_drop]
      rfl
  · intro h
    simp [DbC.recordBodySize]
    omega

/-- Witness for C7 at a concrete 20-byte record: a 4-byte body that starts
right after the header. -/
theorem c7_header_and_body_view_witness :
    DbC.headerSize < c7Rec.Size
  ∧ DbC.recordBodySize c7Rec = c7Rec.Size - DbC.headerSize :=
  ⟨by decide, ((c7_header_and_body_view c7Rec).2.2.2.2.2.2.1 (by decide)).1⟩

/-- C3: Start on a session whose running flag is already set fails with the
"already running" InvalidOperationException, leaving the state untouched; the
Idle-to-Running transition is the single compare-and-set `cas`, which succeeds
exactly when the flag was clear, so of two concurrent Start calls racing
through their CAS from Idle exactly the first to be serialized succeeds and
the other fails — at most one delivery loop is ever started.  (`casPair`
covers both thread interleavings: they are the two namings of first/second.) -/
theorem c3_start_atomic_exclusion (st : DW.WState) (cb : DW.RecCb) (nb ns : NOut)
    (hdisposed : st.disposed = false) (hclient : st.client = true)
    (hrunning : st.running = true) :
    (DW.startFn st (some cb) nb ns).result
        = Except.error (DW.ManagedError.invalidOperation "The live client is already running.")
  ∧ (DW.startFn st (some cb) nb ns).state = st
  ∧ DW.casPair false = (true, false, true)
  ∧ (∀ flag, (DW.cas flag).1 = !flag) := by
  refine ⟨?_, ?_, rfl, ?_⟩
  · simp [DW.startFn, DW.ensureClient, hdisposed, hclient, hrunning, DW.cas]
  · simp [DW.startFn, DW.ensureClient, hdisposed, hclient, hrunning, DW.cas]
  · intro flag
    cases flag <;> rfl

/-- Witness for C3: a second Start on an already-running concrete session
fails with the "already running" error. -/
theorem c3_start_atomic_exclusion_witness :
    (DW.startFn c3State (some okCb) NOut.ok NOut.ok).result
      = Except.error (DW.ManagedError.invalidOperation "The live client is already running.") :=
  (c3_start_atomic_exclusion c3State okCb NOut.ok NOut.ok rfl rfl rfl).1

/-- C8: the record handler checks stop_requested for every delivered record —
it can only return Continue if the flag was observed clear; when the flag is
set the handler returns Stop immediately for that record (even though the
record could have been processed), the handler never clears the flag itself,
and a delivery loop entered with the flag set delivers nothing and halts at
the first record. -/
theorem c8_stop_flag_gates_verdict (st : DW.WState) (record : DW.RecordMsg)
    (rest : List DW.RecordMsg) :
    ((DW.recordHandler st record).verdict = KeepGoing.Continue →
        st.stop_requested = false)
  ∧ (st.stop_requested = true →
        DW.recordHandler st record
          = ⟨KeepGoing.Stop, { st with running := false }, [], []⟩)
  ∧ (DW.recordHandler st record).state.stop_requested = st.stop_requested
  ∧ (st.stop_requested = true →
        DW.runLoop st (record :: rest) = ({ st with running := false }, [])) := by
  refine ⟨?_, ?_, ?_, ?_⟩
  · intro h
    by_contra hs
    have hs' : st.stop_requested = true := by
      cases hq : st.stop_requested
      · exact absurd hq hs
      · rfl
    simp [DW.recordHandler, hs'] at h
  · intro hs
    simp [DW.recordHandler, hs]
  · cases hs : st.stop_requested
    · cases hc : st.callback <;> simp [DW.recordHandler, hs, hc]
    · simp [DW.recordHandler, hs]
  · intro hs
    simp [DW.runLoop, DW.recordHandler, hs]

/-- Witness for C8: on a concrete running session with stop requested, the
handler stops on the very next record and the loop forwards nothing. -/
theorem c8_stop_flag_gates_verdict_witness :
    DW.recordHandler c8State (DW.RecordMsg.trade 5 "t")
        = ⟨KeepGoing.Stop, { c8State with running := false }, [], []⟩
  ∧ DW.runLoop c8State (DW.RecordMsg.trade 5 "t" :: [DW.RecordMsg.errorMsg "e"])
        = ({ c8State with running := false }, []) :=
  ⟨(c8_stop_flag_gates_verdict c8State (DW.RecordMsg.trade 5 "t")
        [DW.RecordMsg.errorMsg "e"]).2.1 rfl,
   (c8_stop_flag_gates_verdict c8State (DW.RecordMsg.trade 5 "t")
        [DW.RecordMsg.errorMsg "e"]).2.2.2 rfl⟩

/-- C9: every successful Start resets the session's symbol map to empty in the
state handed to the new delivery loop, so no mapping recorded in a previous
run resolves in the new one. -/
theorem c9_start_resets_cache (st : DW.WState) (cb : DW.RecCb) (nb ns : NOut)
    (hok : (DW.startFn st (some cb) nb ns).result = Except.ok ()) :
    (DW.startFn st (some cb) nb ns).state.symbol_map = DW.PitSymbolMap.empty
  ∧ ∀ iid, (DW.startFn st (some cb) nb ns).state.symbol_map.at? iid = none := by
  have hmap : (DW.startFn st (some cb) nb ns).state.symbol_map = DW.PitSymbolMap.empty := by
    cases hd : st.disposed with
    | true => simp [DW.startFn, hd] at hok
    | false =>
      rcases he : DW.ensureClient st nb with ⟨st1, r1⟩
      cases r1 with
      | error e => simp [DW.startFn, hd, he] at hok
      | ok =>
        cases hr : st1.running with
        | true => simp [DW.startFn, hd, he, hr, DW.cas] at hok
        | false =>
          cases ns with
          | ok => simp [DW.startFn, hd, he, hr, DW.cas]
          | exn m => simp [DW.startFn, hd, he, hr, DW.cas] at hok
          | unk => simp [DW.startFn, hd, he, hr, DW.cas] at hok
  refine ⟨hmap, fun iid => ?_⟩
  rw [hmap]
  rfl

/-- Witness for C9: a successful Start on a concrete session still holding a
stale mapping for instrument 7 yields an empty symbol map. -/
theorem c9_start_resets_cache_witness :
    (DW.startFn c9State (some okCb) NOut.ok NOut.ok).state.symbol_map
        = DW.PitSymbolMap.empty
  ∧ (DW.startFn c9State (some okCb) NOut.ok NOut.ok).state.symbol_map.at? 7 = none :=
  ⟨(c9_start_resets_cache c9State okCb NOut.ok NOut.ok rfl).1,
   (c9_start_resets_cache c9State okCb NOut.ok NOut.ok rfl).2 7⟩

/-- C10: Stop on a freshly built session is a no-op leaving it Idle; after any
Stop on a non-disposed session the state is fully reset (running and
stop_requested clear, callback cleared, symbol map empty, native client
released); and Stop is idempotent — stopping twice equals stopping once. -/
theorem c10_stop_idempotent (st : DW.WState) (apiKey dataset : String) :
    DW.stopFn (DW.initState apiKey dataset) = DW.initState apiKey dataset
  ∧ (st.disposed = false →
        (DW.stopFn st).running = false
      ∧ (DW.stopFn st).stop_requested = false
      ∧ (DW.stopFn st).callback = none
      ∧ (DW.stopFn st).symbol_map = DW.PitSymbolMap.empty
      ∧ (DW.stopFn st).client = false)
  ∧ DW.stopFn (DW.stopFn st) = DW.stopFn st := by
  refine ⟨?_, ?_, ?_⟩
  · rfl
  · intro hd
    cases hc : st.client <;> simp [DW.stopFn, hd, hc]
  · cases hd : st.disposed with
    | true => simp [DW.stopFn, hd]
    | false => cases hc : st.client <;> simp [DW.stopFn, hd, hc]

/-- Witness for C10: stopping a concrete mid-run session resets every loop
field, and a second Stop changes nothing. -/
theorem c10_stop_idempotent_witness :
    (DW.stopFn c10State).running = false
  ∧ (DW.stopFn c10State).client = false
  ∧ DW.stopFn (DW.stopFn c10State) = DW.stopFn c10State :=
  ⟨((c10_stop_idempotent c10State "key" "ds").2.1 rfl).1,
   ((c10_stop_idempotent c10State "key" "ds").2.1 rfl).2.2.2.2,
   (c10_stop_idempotent c10State "key" "ds").2.2⟩

theorem subscribeCall_null_entry (checks : List (Bool × String))
    (syms : List (Option String)) (n : NOut) (unkMsg : String) (t : Nat)
    (s : DbC.ErrState) (hfc : DbC.firstFailure checks = none) (hnull : none ∈ syms) :
    DbC.runSubscribeCall checks syms n unkMsg t s
      = ⟨DbC.CallResult.status (-1),
          DbC.ErrState.set (DbC.ErrState.set s t "") t "symbol list contains a null entry",
          false⟩ := by
  simp only [DbC.runSubscribeCall, hfc, CopyStrings_mem_none hnull]

theorem subscribeTrades_validation_error {symbols : Option (List (Option String))}
    {e : DW.ManagedError} (h : DW.ValidateSymbols symbols = Except.error e)
    (st : DW.WState) (nb ns : NOut) :
    DW.subscribeTrades st symbols nb ns = ⟨st, Except.error e, false⟩ := by
  simp only [DW.subscribeTrades, h]

theorem ValidateSymbols_rejects {symbols : Option (List (Option String))}
    (hbad : symbols = none ∨ symbols = some []
      ∨ ∃ en ∈ symbols.getD [], DW.isNullOrWhiteSpace en) :
    ∃ e, DW.ValidateSymbols symbols = Except.error e := by
  rcases hbad with h | h | ⟨en, hen, hw⟩
  · exact ⟨DW.ManagedError.argNull "symbols", by rw [h]; rfl⟩
  · exact ⟨DW.ManagedError.argEx "At least one symbol is required." "symbols",
      by rw [h]; rfl⟩
  · cases symbols with
    | none => simp at hen
    | some l =>
      simp only [Option.getD] at hen
      by_cases hl : l.length = 0
      · rw [List.length_eq_zero] at hl
        subst hl
        simp at hen
      · refine ⟨DW.ManagedError.argEx "Symbols cannot contain null or whitespace entries."
          "symbols", ?_⟩
        have hany : l.any DW.isNullOrWhiteSpace = true := List.any_eq_true.mpr ⟨en, hen, hw⟩
        simp [DW.ValidateSymbols, hl, hany]

/-- C4 (amended form): the C-binding subscribe variants reject — before the
list is handed to the engine, leaving the error slot as the only effect — only
a symbol list containing a null entry; the managed SubscribeTrades variant
rejects null, empty, and null-or-whitespace-entry lists with a validation
error before the engine is reached, with the session state unchanged.  (Empty
lists and empty-string entries are NOT rejected by the C bindings; see the
counterexample.) -/
theorem c4_subscribe_validation (t : Nat) (s : DbC.ErrState)
    (syms : List (Option String)) (n : NOut) (st : DW.WState)
    (symbols : Option (List (Option String))) (nb ns : NOut) :
    (none ∈ syms →
        ((DbC.runCCall (DbC.CCall.subscribe false syms n) t s).result
              = DbC.CallResult.status (-1)
          ∧ (DbC.runCCall (DbC.CCall.subscribe false syms n) t s).engineInvoked = false
          ∧ (DbC.runCCall (DbC.CCall.subscribe false syms n) t s).errs t
              = "symbol list contains a null entry")
      ∧ ((DbC.runCCall (DbC.CCall.subscribeFromUnix false syms n) t s).result
              = DbC.CallResult.status (-1)
          ∧ (DbC.runCCall (DbC.CCall.subscribeFromUnix false syms n) t s).engineInvoked
              = false)
      ∧ ((DbC.runCCall (DbC.CCall.subscribeFromStr false false syms n) t s).result
              = DbC.CallResult.status (-1)
          ∧ (DbC.runCCall (DbC.CCall.subscribeFromStr false false syms n) t s).engineInvoked
              = false)
      ∧ ((DbC.runCCall (DbC.CCall.subscribeWithSnapshot false syms n) t s).result
              = DbC.CallResult.status (-1)
          ∧ (DbC.runCCall (DbC.CCall.subscribeWithSnapshot false syms n) t s).engineInvoked
              = false))
  ∧ ((symbols = none ∨ symbols = some []
        ∨ ∃ en ∈ symbols.getD [], DW.isNullOrWhiteSpace en) →
      ∃ e, DW.ValidateSymbols symbols = Except.error e
        ∧ DW.subscribeTrades st symbols nb ns = ⟨st, Except.error e, false⟩) := by
  constructor
  · intro hnull
    have h1 := subscribeCall_null_entry [(false, "client pointer is null")] syms n
      "unexpected error in db_c_live_threaded_subscribe" t s (by simp [DbC.firstFailure]) hnull
    have h2 := subscribeCall_null_entry [(false, "client pointer is null")] syms n
      "unexpected error in db_c_live_threaded_subscribe_from_unix" t s
      (by simp [DbC.firstFailure]) hnull
    have h3 := subscribeCall_null_entry
      [(false, "client pointer is null"), (false, "start pointer is null")] syms n
      "unexpected error in db_c_live_threaded_subscribe_from_str" t s
      (by simp [DbC.firstFailure]) hnull
    have h4 := subscribeCall_null_entry [(false, "client pointer is null")] syms n
      "unexpected error in db_c_live_threaded_subscribe_with_snapshot" t s
      (by simp [DbC.firstFailure]) hnull
    refine ⟨⟨?_, ?_, ?_⟩, ⟨?_, ?_⟩, ⟨?_, ?_⟩, ⟨?_, ?_⟩⟩
    · show (DbC.runSubscribeCall _ _ _ _ _ _).result = _
      rw [h1]
    · show (DbC.runSubscribeCall _ _ _ _ _ _).engineInvoked = _
      rw [h1]
    · show (DbC.runSubscribeCall _ _ _ _ _ _).errs t = _
      rw [h1]
      exact ErrState.set_same _ _ _
    · show (DbC.runSubscribeCall _ _ _ _ _ _).result = _
      rw [h2]
    · show (DbC.runSubscribeCall _ _ _ _ _ _).engineInvoked = _
      rw [h2]
    · show (DbC.runSubscribeCall _ _ _ _ _ _).result = _
      rw [h3]
    · show (DbC.runSubscribeCall _ _ _ _ _ _).engineInvoked = _
      rw [h3]
    · show (DbC.runSubscribeCall _ _ _ _ _ _).result = _
      rw [h4]
    · show (DbC.runSubscribeCall _ _ _ _ _ _).engineInvoked = _
      rw [h4]
  · intro hbad
    obtain ⟨e, he⟩ := ValidateSymbols_rejects hbad
    exact ⟨e, he, subscribeTrades_validation_error he st nb ns⟩

/-- C4 counterexample: the C-binding subscribe accepts a list whose only entry
is the empty string, and accepts the empty list — both return 0 and reach the
engine instead of failing validation. -/
theorem c4_empty_symbol_counterexample :
    (DbC.runCCall (DbC.CCall.subscribe false [some ""] NOut.ok) 0 DbC.emptyErrState).result
        = DbC.CallResult.status 0
  ∧ (DbC.runCCall (DbC.CCall.subscribe false [some ""] NOut.ok) 0
        DbC.emptyErrState).engineInvoked = true
  ∧ (DbC.runCCall (DbC.CCall.subscribe false [] NOut.ok) 0 DbC.emptyErrState).result
        = DbC.CallResult.status 0
  ∧ (DbC.runCCall (DbC.CCall.subscribe false [] NOut.ok) 0
        DbC.emptyErrState).engineInvoked = true := by
  exact ⟨rfl, rfl, rfl, rfl⟩

/-- Witness for C4: a null entry is rejected by the C binding before the
engine is reached, and the managed wrapper rejects an empty-string entry. -/
theorem c4_subscribe_validation_witness :
    (DbC.runCCall (DbC.CCall.subscribe false [none] NOut.ok) 0 DbC.emptyErrState).result
        = DbC.CallResult.status (-1)
  ∧ ∃ e, DW.ValidateSymbols (some [some ""]) = Except.error e
      ∧ DW.subscribeTrades (DW.initState "k" "d") (some [some ""]) NOut.ok NOut.ok
          = ⟨DW.initState "k" "d", Except.error e, false⟩ :=
  ⟨((c4_subscribe_validation 0 DbC.emptyErrState [none] NOut.ok (DW.initState "k" "d")
        (some [some ""]) NOut.ok NOut.ok).1 (by decide)).1.1,
   (c4_subscribe_validation 0 DbC.emptyErrState [none] NOut.ok (DW.initState "k" "d")
        (some [some ""]) NOut.ok NOut.ok).2
      (Or.inr (Or.inr ⟨some "", by decide, by decide⟩))⟩

/-- C5 counterexample: after a successful build on a builder handle, a second
db_c_live_builder_build_threaded call on the same handle also returns a
non-null session handle and records no error at all — the boundary has no
"consumed" state and never rejects reuse. -/
theorem c5_second_build_counterexample :
    (DbC.runCCall (DbC.CCall.buildThreaded false NOut.ok) 0 DbC.emptyErrState).result
        = DbC.CallResult.handleRes true
  ∧ (DbC.runCCall (DbC.CCall.buildThreaded false NOut.ok) 0
        (DbC.runCCall (DbC.CCall.buildThreaded false NOut.ok) 0 DbC.emptyErrState).errs).result
        = DbC.CallResult.handleRes true
  ∧ DbC.lastErrorOn
      (DbC.runCCall (DbC.CCall.buildThreaded false NOut.ok) 0
        (DbC.runCCall (DbC.CCall.buildThreaded false NOut.ok) 0 DbC.emptyErrState).errs).errs
      0 = none := by
  exact ⟨rfl, rfl, rfl⟩

/-- C5 (amended form): the boundary performs no consumption check on a builder
— the outcome of db_c_live_builder_build_threaded depends only on its
arguments, never on any prior call history, and whenever the native build
succeeds the call returns a fresh non-null session handle with the error slot
cleared, including on a repeat build of the same builder handle. -/
theorem c5_no_consumed_state (t : Nat) (s s2 : DbC.ErrState) (n : NOut) :
    (DbC.runCCall (DbC.CCall.buildThreaded false n) t s).result
        = (DbC.runCCall (DbC.CCall.buildThreaded false n) t s2).result
  ∧ (DbC.runCCall (DbC.CCall.buildThreaded false NOut.ok) t s).result
        = DbC.CallResult.handleRes true
  ∧ DbC.lastErrorOn (DbC.runCCall (DbC.CCall.buildThreaded false NOut.ok) t s).errs t
        = none := by
  refine ⟨?_, rfl, ?_⟩
  · cases n <;> rfl
  · exact lastErrorOn_of_empty _ _ (ErrState.set_same _ _ _)

theorem recordHandler_continue (st : DW.WState) (cb : DW.RecCb) (r : DW.RecordMsg)
    (h1 : st.stop_requested = false) (h2 : st.callback = some cb) :
    DW.recordHandler st r =
      ⟨KeepGoing.Continue,
        { st with symbol_map := (DW.dispatchEvents st.symbol_map r).1 },
        (DW.dispatchEvents st.symbol_map r).2,
        (DW.dispatchEvents st.symbol_map r).2.map cb⟩ := by
  simp [DW.recordHandler, h1, h2]

theorem runLoop_cons_continue (st : DW.WState) (cb : DW.RecCb) (r : DW.RecordMsg)
    (rest : List DW.RecordMsg) (h1 : st.stop_requested = false)
    (h2 : st.callback = some cb) :
    DW.runLoop st (r :: rest)
      = ((DW.runLoop { st with symbol_map := (DW.dispatchEvents st.symbol_map r).1 } rest).1,
          (DW.dispatchEvents st.symbol_map r).2
            ++ (DW.runLoop { st with
                  symbol_map := (DW.dispatchEvents st.symbol_map r).1 } rest).2) := by
  simp only [DW.runLoop, recordHandler_continue st cb r h1 h2]

theorem at?_onSymbolMapping (m : DW.PitSymbolMap) (jid iid : Nat) (sym : String) :
    (m.onSymbolMapping jid sym).at? iid = if jid = iid then some sym else m.at? iid := by
  unfold DW.PitSymbolMap.onSymbolMapping DW.PitSymbolMap.at?
  by_cases h : jid = iid
  · rw [List.find?_cons_of_pos _ (by simp [h])]
    simp [h]
  · rw [List.find?_cons_of_neg _ (by simp [h])]
    simp [h]

theorem runLoop_map_at (cb : DW.RecCb) (iid : Nat) (recs : List DW.RecordMsg) :
    ∀ st : DW.WState, st.stop_requested = false → st.callback = some cb →
    ((DW.runLoop st recs).1).symbol_map.at? iid
      = match DW.lastMappingSymbol recs iid with
        | some s => some s
        | none => st.symbol_map.at? iid := by
  induction recs with
  | nil =>
    intro st _ _
    simp [DW.runLoop, DW.lastMappingSymbol]
  | cons r rest ih =>
    intro st h1 h2
    rw [runLoop_cons_continue st cb r rest h1 h2]
    have ih' := ih { st with symbol_map := (DW.dispatchEvents st.symbol_map r).1 } h1 h2
    rw [ih']
    cases r with
    | mapping jid sym txt =>
      cases hls : DW.lastMappingSymbol rest iid with
      | some s => simp [DW.dispatchEvents, DW.lastMappingSymbol, hls]
      | none =>
        by_cases hj : jid = iid <;>
          simp [DW.dispatchEvents, DW.lastMappingSymbol, hls, at?_onSymbolMapping, hj]
    | trade jid txt =>
      cases hls : DW.lastMappingSymbol rest iid <;>
        simp [DW.dispatchEvents, DW.lastMappingSymbol, hls]
    | system hb txt =>
      cases hls : DW.lastMappingSymbol rest iid <;>
        simp [DW.dispatchEvents, DW.lastMappingSymbol, hls]
    | errorMsg txt =>
      cases hls : DW.lastMappingSymbol rest iid <;>
        simp [DW.dispatchEvents, DW.lastMappingSymbol, hls]
    | other rtype =>
      cases hls : DW.lastMappingSymbol rest iid <;>
        simp [DW.dispatchEvents, DW.lastMappingSymbol, hls]

theorem runLoop_split_trade (cb : DW.RecCb) (iid : Nat) (text : String)
    (post : List DW.RecordMsg) (pre : List DW.RecordMsg) :
    ∀ st : DW.WState, st.stop_requested = false → st.callback = some cb →
    (DW.runLoop st (pre ++ DW.RecordMsg.trade iid text :: post)).2
      = (DW.runLoop st pre).2
          ++ DW.Event.mk "trade" iid (((DW.runLoop st pre).1.symbol_map.at? iid).getD "")
              text
            :: (DW.runLoop (DW.runLoop st pre).1 post).2 := by
  induction pre with
  | nil =>
    intro st h1 h2
    rw [List.nil_append]
    rw [runLoop_cons_continue st cb (DW.RecordMsg.trade iid text) post h1 h2]
    simp [DW.runLoop, DW.dispatchEvents]
  | cons r pre' ih =>
    intro st h1 h2
    rw [List.cons_append]
    rw [runLoop_cons_continue st cb r (pre' ++ DW.RecordMsg.trade iid text :: post) h1 h2]
    rw [runLoop_cons_continue st cb r pre' h1 h2]
    rw [ih { st with symbol_map := (DW.dispatchEvents st.symbol_map r).1 } h1 h2]
    simp [List.append_assoc]

/-- C6: in one delivery run starting from an empty symbol map, the "trade"
event forwarded for a trade record carries the symbol of the most recent prior
mapping record for the same instrument id, and the empty string when no such
mapping preceded it; the trade event is always forwarded — an unresolved
lookup never fails the dispatch of that record. -/
theorem c6_trade_event_symbol (st : DW.WState) (cb : DW.RecCb)
    (pre post : List DW.RecordMsg) (iid : Nat) (text : String)
    (h1 : st.stop_requested = false) (h2 : st.callback = some cb)
    (h3 : st.symbol_map = DW.PitSymbolMap.empty) :
    (DW.runLoop st (pre ++ DW.RecordMsg.trade iid text :: post)).2
      = (DW.runLoop st pre).2
          ++ DW.Event.mk "trade" iid ((DW.lastMappingSymbol pre iid).getD "") text
            :: (DW.runLoop (DW.runLoop st pre).1 post).2 := by
  rw [runLoop_split_trade cb iid text post pre st h1 h2]
  have hm := runLoop_map_at cb iid pre st h1 h2
  cases hls : DW.lastMappingSymbol pre iid with
  | none =>
    rw [hls] at hm
    rw [h3] at hm
    have hempty : DW.PitSymbolMap.empty.at? iid = none := rfl
    rw [hempty] at hm
    rw [hm]
  | some sname =>
    rw [hls] at hm
    rw [hm]

/-- Witness for C6: with a concrete session, a mapping of instrument 100 to
"ESZ4" followed by a trade for instrument 100 forwards a trade event carrying
symbol "ESZ4". -/
theorem c6_trade_event_symbol_witness :
    (DW.runLoop c6State
        ([DW.RecordMsg.mapping 100 "ESZ4" "mtext"]
          ++ DW.RecordMsg.trade 100 "ttext" :: [])).2
      = (DW.runLoop c6State [DW.RecordMsg.mapping 100 "ESZ4" "mtext"]).2
          ++ DW.Event.mk "trade" 100
              ((DW.lastMappingSymbol [DW.RecordMsg.mapping 100 "ESZ4" "mtext"] 100).getD "")
              "ttext"
            :: (DW.runLoop
                (DW.runLoop c6State [DW.RecordMsg.mapping 100 "ESZ4" "mtext"]).1 []).2 :=
  c6_trade_event_symbol c6State okCb [DW.RecordMsg.mapping 100 "ESZ4" "mtext"] [] 100
    "ttext" rfl rfl rfl
